import Mathlib

/-!
# Verification of the Teacher-Evaluation-System scoring engine and
# observation lifecycle

Shallow embedding of the repository's core into Lean 4:

* `src/utils/scoring.ts` — `calculateDomainScores`, `calculateGrandTotal`,
  `calculateOverallRating`, `validateObservationData`;
* `src/types` — `OverallRatingThreshold`, `DEFAULT_OVERALL_RATING_THRESHOLDS`;
* the observation status route (`PUT` with SUBMIT / REVIEW / FINALIZE /
  RETURN_TO_DRAFT actions) and the observation edit/delete route;
* `src/lib/audit-log.ts` — `createAuditLog`.

JavaScript numbers are modelled as rationals (`ℚ`); `undefined`/`null` on a
field of type `T` are modelled as `none : Option T` (the two are conflated,
which is faithful for every code path embedded here: the source only ever
distinguishes them through `!== undefined`/`!== null` tests applied to values
that can only be one of the two).  JavaScript's falsy coercion `x || y` on
numbers (`0` is falsy) and strings (`""` is falsy) is modelled explicitly.
-/

namespace TES

/-- JS `Math.round`: round half toward positive infinity. -/
def jsRound (x : ℚ) : ℤ := ⌊x + 1/2⌋

/-- `Math.round(x * 100) / 100` — round to 2 decimal places as the source does. -/
def round2 (x : ℚ) : ℚ := (jsRound (x * 100) : ℚ) / 100

/-- JS `v || undefined` for a possibly-absent number: `0` (falsy) and
`null`/`undefined` all collapse to `undefined`. -/
def jsNumOrUndefined : Option ℚ → Option ℚ
  | none => none
  | some v => if v = 0 then none else some v

/-- JS `s || undefined` for a possibly-absent string: `""` (falsy) and
`null`/`undefined` all collapse to `undefined`. -/
def jsStrOrUndefined : Option String → Option String
  | none => none
  | some s => if s = "" then none else some s

/-- JS `s || d` for a possibly-absent string with a non-empty default `d`. -/
def jsStrOr (x : Option String) (d : String) : String :=
  match x with
  | none => d
  | some s => if s = "" then d else s

/-- The fields of `RubricItem` the scoring engine reads (`id`, `maxScore`). -/
structure RubricItem where
  id : String
  maxScore : ℚ
deriving DecidableEq, Repr

/-- The fields of `RubricDomain` the scoring engine reads. -/
structure RubricDomain where
  id : String
  name : String
  items : List RubricItem
deriving DecidableEq, Repr

/-- One value of the `Record<string, {rating, comment}>` score map.
`rating : RatingScale` may be absent/null at runtime (the source guards with
`!== undefined && !== null`), hence `Option ℚ`. -/
structure ScoreEntry where
  rating : Option ℚ
  comment : Option String
deriving DecidableEq, Repr

/-- The score map `Record<string, ScoreEntry>`, as an association list
(JS object keys are unique; lookup takes the first match). -/
abbrev ScoreMap := List (String × ScoreEntry)

/-- `itemScores[item.id]` — JS object indexing, `undefined` when absent. -/
def lookupScore (m : ScoreMap) (id : String) : Option ScoreEntry :=
  (List.find? (fun p => p.1 = id) m).map Prod.snd

/-- The per-item record built inside `calculateDomainScores` (the `createdAt`/
`updatedAt` `Date` fields are outside the embedding; no claim mentions them). -/
structure ItemScore where
  id : String
  observationId : String
  rubricItemId : String
  rating : Option ℚ
  comment : Option String
deriving DecidableEq, Repr

/-- `{ id: `score-${item.id}`, observationId: 'temp', rubricItemId: item.id,
rating: score?.rating || undefined, comment: score?.comment || undefined }`. -/
def mkItemScore (m : ScoreMap) (item : RubricItem) : ItemScore :=
  { id := "score-" ++ item.id
    observationId := "temp"
    rubricItemId := item.id
    rating := jsNumOrUndefined ((lookupScore m item.id).bind ScoreEntry.rating)
    comment := jsStrOrUndefined ((lookupScore m item.id).bind ScoreEntry.comment) }

/-- The `DomainScore` shape returned by `calculateDomainScores` (the source's
return object has exactly these fields; `maxPossible` is not returned). -/
structure DomainScore where
  domainId : String
  domainName : String
  total : ℚ
  percentage : ℚ
  itemScores : List ItemScore
deriving DecidableEq, Repr

/-- `domain.items.map(item => ...)` — the per-item records of one domain. -/
def domainItemScoresOf (m : ScoreMap) (domain : RubricDomain) : List ItemScore :=
  domain.items.map (mkItemScore m)

/-- `domainItemScores.filter(score => score.rating !== undefined && score.rating !== null)`
(`undefined` and `null` are both `none`, so the test is `isSome`). -/
def applicableItemsOf (l : List ItemScore) : List ItemScore :=
  l.filter (fun s => s.rating.isSome)

/-- `applicableItems.reduce((sum, score) => sum + (score.rating || 0), 0)`. -/
def domainTotalOf (applicable : List ItemScore) : ℚ :=
  applicable.foldl (fun sum s => sum + s.rating.getD 0) 0

/-- `applicableItems.length * domain.items[0]?.maxScore || 0`: with no items the
product is `NaN` and `|| 0` yields `0`; otherwise the count of applicable items
times the FIRST item's `maxScore` (a `0` product is also mapped to `0` by
`|| 0`, the same value). -/
def domainMaxPossibleOf (domain : RubricDomain) (applicableCount : ℕ) : ℚ :=
  match domain.items with
  | [] => 0
  | first :: _ => (applicableCount : ℚ) * first.maxScore

/-- `maxPossibleScore > 0 ? (total / maxPossibleScore) * 100 : 0`. -/
def rawPercentage (total maxPossibleScore : ℚ) : ℚ :=
  if maxPossibleScore > 0 then total / maxPossibleScore * 100 else 0

/-- `calculateDomainScores` from `src/utils/scoring.ts`. -/
def calculateDomainScores (domains : List RubricDomain) (itemScores : ScoreMap) :
    List DomainScore :=
  domains.map (fun domain =>
    let domainItemScores := domainItemScoresOf itemScores domain
    let applicableItems := applicableItemsOf domainItemScores
    let total := domainTotalOf applicableItems
    let maxPossibleScore := domainMaxPossibleOf domain applicableItems.length
    let percentage := rawPercentage total maxPossibleScore
    { domainId := domain.id
      domainName := domain.name
      total := total
      percentage := round2 percentage
      itemScores := domainItemScores })

/-- `calculateGrandTotal`: `domainScores.reduce((sum, d) => sum + d.total, 0)`. -/
def calculateGrandTotal (domainScores : List DomainScore) : ℚ :=
  domainScores.foldl (fun sum d => sum + d.total) 0

/-- `OverallRatingThreshold` from `src/types`. -/
structure OverallRatingThreshold where
  minPercentage : ℚ
  maxPercentage : ℚ
  rating : String
  color : String
deriving DecidableEq, Repr

/-- `DEFAULT_OVERALL_RATING_THRESHOLDS` from `src/types`. -/
def DEFAULT_OVERALL_RATING_THRESHOLDS : List OverallRatingThreshold :=
  [ { minPercentage := 90, maxPercentage := 100, rating := "Excellent", color := "success" }
  , { minPercentage := 75, maxPercentage := 89, rating := "Good", color := "primary" }
  , { minPercentage := 60, maxPercentage := 74, rating := "Average", color := "warning" }
  , { minPercentage := 50, maxPercentage := 59, rating := "Weak", color := "warning" }
  , { minPercentage := 0, maxPercentage := 49, rating := "Very Poor", color := "danger" } ]

/-- The result shape of `calculateOverallRating`. -/
structure OverallRating where
  rating : String
  color : String
  percentage : ℚ
deriving DecidableEq, Repr

/-- The `totalMaxScore` reduction in `calculateOverallRating`:
`sum + (d.itemScores.filter(s => s.rating !== undefined && s.rating !== 0).length * 4)`. -/
def overallTotalMaxScore (domainScores : List DomainScore) : ℚ :=
  domainScores.foldl
    (fun sum d =>
      sum + ((d.itemScores.filter
        (fun s => decide (s.rating ≠ none ∧ s.rating ≠ some 0))).length : ℚ) * 4)
    0

/-- The rounded `overallPercentage` of `calculateOverallRating`. -/
def overallRoundedPercentage (domainScores : List DomainScore) : ℚ :=
  round2 (rawPercentage (calculateGrandTotal domainScores) (overallTotalMaxScore domainScores))

/-- `thresholds.find(t => p >= t.minPercentage && p <= t.maxPercentage)`. -/
def findThresholdFor (thresholds : List OverallRatingThreshold) (p : ℚ) :
    Option OverallRatingThreshold :=
  thresholds.find? (fun t => decide (p ≥ t.minPercentage ∧ p ≤ t.maxPercentage))

/-- `calculateOverallRating` from `src/utils/scoring.ts` (the default value of
the `thresholds` parameter is `DEFAULT_OVERALL_RATING_THRESHOLDS`; here it is
always passed explicitly). -/
def calculateOverallRating (domainScores : List DomainScore)
    (thresholds : List OverallRatingThreshold) : OverallRating :=
  if domainScores.length = 0 then
    { rating := "No Data", color := "gray", percentage := 0 }
  else
    { rating := jsStrOr ((findThresholdFor thresholds
        (overallRoundedPercentage domainScores)).map OverallRatingThreshold.rating) "Unknown"
      color := jsStrOr ((findThresholdFor thresholds
        (overallRoundedPercentage domainScores)).map OverallRatingThreshold.color) "gray"
      percentage := overallRoundedPercentage domainScores }

/-- The input shape of `validateObservationData`. -/
structure ObservationValidationInput where
  totalStudents : ℚ
  presentStudents : ℚ
  itemScores : ScoreMap
deriving DecidableEq, Repr

/-- The result shape of `validateObservationData`. -/
structure ValidationResult where
  isValid : Bool
  errors : List String
deriving DecidableEq, Repr

/-- `Object.values(data.itemScores).some(s => s.rating !== undefined && s.rating !== 0)`. -/
def hasScores (m : ScoreMap) : Bool :=
  (m.map Prod.snd).any (fun s => decide (s.rating ≠ none ∧ s.rating ≠ some 0))

/-- `validateObservationData` from `src/utils/scoring.ts`; the four `errors.push`
calls run unconditionally in order, so the list concatenates the messages of
every violated rule. -/
def validateObservationData (data : ObservationValidationInput) : ValidationResult :=
  let errors :=
    (if data.totalStudents ≤ 0 then ["Total students must be greater than 0"] else []) ++
    (if data.presentStudents < 0 then ["Present students cannot be negative"] else []) ++
    (if data.presentStudents > data.totalStudents then
      ["Present students cannot exceed total students"] else []) ++
    (if hasScores data.itemScores then [] else ["At least one rubric item must be scored"])
  { isValid := errors.length = 0, errors := errors }

/-! ## Observation lifecycle (status route, edit route, delete route) -/

/-- The Prisma `ObservationStatus` enum. -/
inductive ObservationStatus where
  | DRAFT
  | SUBMITTED
  | REVIEWED
  | FINALIZED
deriving DecidableEq, Repr

/-- A persisted `ObservationItemScore` row as the routes read it
(`rating` is a nullable integer column). -/
structure DbItemScore where
  rubricItemId : String
  rating : Option ℚ
  comment : Option String
deriving DecidableEq, Repr

/-- A persisted `Observation` row: identity/ownership, the contextual fields the
edit route rewrites, the review fields, the status, and the item scores the
status route loads with `include: { itemScores: true }`.  `Date` columns are
modelled as `Nat` instants supplied by the caller. -/
structure Observation where
  id : String
  observerId : String
  teacherId : String
  branchId : String
  status : ObservationStatus
  classSection : String
  totalStudents : ℚ
  presentStudents : ℚ
  subject : String
  topic : String
  date : Nat
  time : String
  lessonPlanAttached : Bool
  strengths : Option String
  areasToImprove : Option String
  suggestions : Option String
  reviewerId : Option String
  reviewedAt : Option Nat
  reviewerComments : Option String
  finalizedAt : Option Nat
  itemScores : List DbItemScore
deriving DecidableEq, Repr

/-- The authenticated session the routes read (`session.user.id`,
`session.user.role`). -/
structure Session where
  userId : String
  role : String
deriving DecidableEq, Repr

/-- The `diff` JSON payload written by the status route
(`{ action, previousStatus, newStatus }`); the edit/delete routes write only
`{ action }`, modelled with the statuses absent. -/
structure AuditDiff where
  action : String
  previousStatus : Option ObservationStatus
  newStatus : Option ObservationStatus
deriving DecidableEq, Repr

/-- One `auditLog` row (`objectType`, `objectId`, `action`, `userId`, `diff`). -/
structure AuditLogEntry where
  objectType : String
  objectId : String
  action : String
  userId : String
  diff : AuditDiff
deriving DecidableEq, Repr

/-- A route response: `NextResponse.json(value)` on success, or
`NextResponse.json({error}, {status})` on failure. -/
inductive ApiResponse (α : Type) where
  | ok (val : α)
  | err (error : String) (status : Nat)
deriving DecidableEq, Repr

/-- `true` exactly on the error constructor. -/
def ApiResponse.isErr {α : Type} : ApiResponse α → Bool
  | .ok _ => false
  | .err _ _ => true

/-- Result of the status-transition route: the HTTP response, the observation
row after the request, and the audit rows appended by the request. -/
structure TransitionOutcome where
  response : ApiResponse Observation
  db : Observation
  audit : List AuditLogEntry
deriving DecidableEq, Repr

/-- An early rejection: error response, database untouched, no audit row. -/
def transitionErr (obs : Observation) (msg : String) (code : Nat) : TransitionOutcome :=
  { response := .err msg code, db := obs, audit := [] }

/-- `reviewerComments ? String(reviewerComments).trim() : null` — a falsy
(absent/null/empty) body field becomes `null`, anything else is trimmed. -/
def sanitizeReviewerComments (c : Option String) : Option String :=
  match c with
  | none => none
  | some s => if s = "" then none else some s.trim

/-- The shared tail of every `switch` arm in the status route: the
`prisma.observation.update` has already succeeded (its result is `updated`);
then `prisma.auditLog.create` runs inside the same `try` block.  If the audit
write fails (`auditOk = false`) the exception reaches the route's `catch`,
which answers `{error: 'Internal server error'}, {status: 500}` — the already
committed update is not rolled back, and no audit row exists. -/
def finishTransition (sess : Session) (obs updated : Observation)
    (action auditAction : String) (auditOk : Bool) : TransitionOutcome :=
  if auditOk then
    { response := .ok updated
      db := updated
      audit := [{ objectType := "Observation"
                  objectId := obs.id
                  action := action.toUpper
                  userId := sess.userId
                  diff := { action := auditAction
                            previousStatus := some obs.status
                            newStatus := some updated.status } }] }
  else
    { response := .err "Internal server error" 500, db := updated, audit := [] }

/-- The `PUT` handler of the observation status route (SUBMIT / REVIEW /
FINALIZE / RETURN_TO_DRAFT).  Rate limiting, session lookup and the 404 path
are outside the embedding: the handler is modelled from the point where the
observation row `obs` has been loaded for an authenticated session `sess`.
`now` stands for `new Date()`; `auditOk` tells whether the audit-log insert
succeeds. -/
def observationStatusPUT (sess : Session) (obs : Observation) (action : String)
    (reviewerComments : Option String) (now : Nat) (auditOk : Bool) :
    TransitionOutcome :=
  if ¬ (["SUBMIT", "REVIEW", "FINALIZE", "RETURN_TO_DRAFT"].contains action) then
    transitionErr obs "Valid action is required: SUBMIT, REVIEW, FINALIZE, or RETURN_TO_DRAFT" 400
  else
    match action with
    | "SUBMIT" =>
      if obs.observerId ≠ sess.userId ∧ sess.role ≠ "ADMIN" then
        transitionErr obs "Forbidden" 403
      else if obs.status ≠ ObservationStatus.DRAFT then
        transitionErr obs "Only draft observations can be submitted" 400
      else if (obs.itemScores.filter (fun s => decide (s.rating ≠ none))).length = 0 then
        transitionErr obs "At least one rubric item must be rated before submission" 400
      else
        finishTransition sess obs { obs with status := ObservationStatus.SUBMITTED }
          action "Submitted observation for review" auditOk
    | "REVIEW" =>
      if ¬ (["REVIEWER", "ADMIN"].contains sess.role) then
        transitionErr obs "Forbidden" 403
      else if obs.status ≠ ObservationStatus.SUBMITTED then
        transitionErr obs "Only submitted observations can be reviewed" 400
      else
        finishTransition sess obs
          { obs with status := ObservationStatus.REVIEWED
                     reviewerId := some sess.userId
                     reviewedAt := some now
                     reviewerComments := sanitizeReviewerComments reviewerComments }
          action "Reviewed observation" auditOk
    | "FINALIZE" =>
      if ¬ (["REVIEWER", "ADMIN"].contains sess.role) then
        transitionErr obs "Forbidden" 403
      else if obs.status ≠ ObservationStatus.REVIEWED then
        transitionErr obs "Only reviewed observations can be finalized" 400
      else
        finishTransition sess obs
          { obs with status := ObservationStatus.FINALIZED, finalizedAt := some now }
          action "Finalized observation" auditOk
    | "RETURN_TO_DRAFT" =>
      if ¬ (["REVIEWER", "ADMIN"].contains sess.role) then
        transitionErr obs "Forbidden" 403
      else if ¬ ([ObservationStatus.SUBMITTED, ObservationStatus.REVIEWED].contains obs.status) then
        transitionErr obs "Only submitted or reviewed observations can be returned to draft" 400
      else
        finishTransition sess obs
          { obs with status := ObservationStatus.DRAFT
                     reviewerId := none
                     reviewedAt := none
                     reviewerComments := none }
          action "Returned observation to draft" auditOk
    | _ => transitionErr obs "Invalid action" 400

/-- The JSON body of the observation edit route; `none` models a field absent
from the body (`undefined` after destructuring, which Prisma's `update` skips). -/
structure EditBody where
  classSection : Option String
  totalStudents : Option ℚ
  presentStudents : Option ℚ
  subject : Option String
  topic : Option String
  date : Option Nat
  time : Option String
  lessonPlanAttached : Option Bool
  strengths : Option String
  areasToImprove : Option String
  suggestions : Option String
  itemScores : Option ScoreMap
deriving DecidableEq, Repr

/-- `itemData` of the edit route's score rewrite:
`{ observationId, rubricItemId, rating: itemData.rating, comment: itemData.comment || null }`. -/
def mkDbItemScore (p : String × ScoreEntry) : DbItemScore :=
  { rubricItemId := p.1
    rating := p.2.rating
    comment := jsStrOrUndefined p.2.comment }

/-- The `prisma.observation.update` of the edit route: every body field that is
present overwrites the row; absent (`undefined`) fields are skipped. -/
def applyEditFields (obs : Observation) (body : EditBody) : Observation :=
  { obs with
    classSection := body.classSection.getD obs.classSection
    totalStudents := body.totalStudents.getD obs.totalStudents
    presentStudents := body.presentStudents.getD obs.presentStudents
    subject := body.subject.getD obs.subject
    topic := body.topic.getD obs.topic
    date := body.date.getD obs.date
    time := body.time.getD obs.time
    lessonPlanAttached := body.lessonPlanAttached.getD obs.lessonPlanAttached
    strengths := (body.strengths.map some).getD obs.strengths
    areasToImprove := (body.areasToImprove.map some).getD obs.areasToImprove
    suggestions := (body.suggestions.map some).getD obs.suggestions }

/-- `if (itemScores && Object.keys(itemScores).length > 0)`: delete the existing
`ObservationItemScore` rows and insert one row per body entry. -/
def applyEditScores (obs : Observation) (body : EditBody) : Observation :=
  match body.itemScores with
  | some scores =>
    if scores.length ≠ 0 then { obs with itemScores := scores.map mkDbItemScore } else obs
  | none => obs

/-- The `PUT` handler of the observation edit route, modelled from the point
where the row `obs` was found for an authenticated session `sess` (the
`presentStudents > totalStudents` guard compares the two body fields; a
comparison with `undefined` is false in JS, hence the double `match`). -/
def observationEditPUT (sess : Session) (obs : Observation) (body : EditBody)
    (auditOk : Bool) : TransitionOutcome :=
  if obs.observerId ≠ sess.userId ∧ sess.role ≠ "ADMIN" then
    transitionErr obs "Forbidden" 403
  else if obs.status = ObservationStatus.FINALIZED then
    transitionErr obs "Cannot edit finalized observation" 400
  else if (match body.presentStudents, body.totalStudents with
           | some p, some t => decide (p > t)
           | _, _ => false) then
    transitionErr obs "Present students cannot exceed total students" 400
  else
    let updated := applyEditScores (applyEditFields obs body) body
    if auditOk then
      { response := .ok updated
        db := updated
        audit := [{ objectType := "Observation"
                    objectId := obs.id
                    action := "UPDATE"
                    userId := sess.userId
                    diff := { action := "Updated observation"
                              previousStatus := none
                              newStatus := none } }] }
    else
      { response := .err "Internal server error" 500, db := updated, audit := [] }

/-- Result of the delete route: the response, the row after the request
(`none` once deleted), and the audit rows appended. -/
structure DeleteOutcome where
  response : ApiResponse String
  db : Option Observation
  audit : List AuditLogEntry
deriving DecidableEq, Repr

/-- The `DELETE` handler of the observation route, modelled from the point
where the row `obs` was found for an authenticated session `sess`. -/
def observationDELETE (sess : Session) (obs : Observation) (auditOk : Bool) :
    DeleteOutcome :=
  if obs.observerId ≠ sess.userId ∧ sess.role ≠ "ADMIN" then
    { response := .err "Forbidden" 403, db := some obs, audit := [] }
  else if obs.status = ObservationStatus.FINALIZED then
    { response := .err "Cannot delete finalized observation" 400, db := some obs, audit := [] }
  else if auditOk then
    { response := .ok "Observation deleted successfully"
      db := none
      audit := [{ objectType := "Observation"
                  objectId := obs.id
                  action := "DELETE"
                  userId := sess.userId
                  diff := { action := "Deleted observation"
                            previousStatus := none
                            newStatus := none } }] }
  else
    { response := .err "Internal server error" 500, db := none, audit := [] }

/-! ## Audit-log helper (`src/lib/audit-log.ts`) -/

/-- The parameters of `createAuditLog` (the source's defaults
`objectType='SYSTEM'`, `objectId='N/A'`, `details=''`, `ipAddress='unknown'`
are supplied by callers of the model). -/
structure CreateAuditLogParams where
  userId : String
  action : String
  objectType : String
  objectId : String
  details : String
deriving DecidableEq, Repr

/-- `createAuditLog` from `src/lib/audit-log.ts`: the insert runs inside its own
`try`; on failure (`writeOk = false`) the `catch` logs and returns `null` — the
helper never throws ("Don't throw error as audit logging shouldn't break main
functionality"). -/
def createAuditLog (p : CreateAuditLogParams) (writeOk : Bool) : Option AuditLogEntry :=
  if writeOk then
    some { objectType := p.objectType
           objectId := p.objectId
           action := p.action
           userId := p.userId
           diff := { action := p.details, previousStatus := none, newStatus := none } }
  else
    none

/-! ## Spec-worded comparison definitions

These two definitions follow the SPECIFICATION's words (not the source), to be
compared against the source-derived definitions above. -/

/-- Spec wording: the rating of an item counted "only if it has a non-null,
non-zero rating" — `some r` with `r ≠ 0`, else `none`. -/
def specIncludedRating (m : ScoreMap) (item : RubricItem) : Option ℚ :=
  match lookupScore m item.id with
  | none => none
  | some e =>
    match e.rating with
    | none => none
    | some r => if r = 0 then none else some r

/-- The ratings of a domain's included items, in item order. -/
def specIncludedRatings (m : ScoreMap) (domain : RubricDomain) : List ℚ :=
  domain.items.filterMap (specIncludedRating m)

/-- Spec wording: "`maxPossible` = sum of included items' `maxScore`" — each
included item contributes its OWN `maxScore`. -/
def specMaxPossible (m : ScoreMap) (domain : RubricDomain) : ℚ :=
  ((domain.items.filter (fun it => decide (specIncludedRating m it ≠ none))).map
    RubricItem.maxScore).sum

/-! ## Concrete inputs used by counterexamples and witnesses -/

/-- A domain with two items of `maxScore` 4 (spec's zero-exclusion example). -/
def zeroExclusionDomain : RubricDomain :=
  { id := "d1", name := "Domain 1",
    items := [{ id := "i1", maxScore := 4 }, { id := "i2", maxScore := 4 }] }

/-- Item `i1` rated 0, item `i2` rated 3. -/
def zeroExclusionScores : ScoreMap :=
  [("i1", { rating := some 0, comment := none }),
   ("i2", { rating := some 3, comment := none })]

/-- A domain whose two items carry different `maxScore` values (4 and 8). -/
def mixedMaxDomain : RubricDomain :=
  { id := "d1", name := "Domain 1",
    items := [{ id := "i1", maxScore := 4 }, { id := "i2", maxScore := 8 }] }

/-- Both items rated (3 and 6). -/
def mixedMaxScores : ScoreMap :=
  [("i1", { rating := some 3, comment := none }),
   ("i2", { rating := some 6, comment := none })]

/-- A rated `ItemScore` as it appears inside a `DomainScore`. -/
def ratedItemScore : ItemScore :=
  { id := "score-i", observationId := "temp", rubricItemId := "i",
    rating := some 4, comment := none }

/-- 367 rated items and a grand total of 1321 points: the overall percentage is
`25·1321/367 ≈ 89.9864`, which rounds to exactly `89.99`. -/
def gapDomainScores : List DomainScore :=
  [{ domainId := "d", domainName := "D", total := 1321, percentage := 0,
     itemScores := List.replicate 367 ratedItemScore }]

/-- 5 rated items and a total of 18 points: the overall percentage is exactly
`90.00`. -/
def ninetyDomainScores : List DomainScore :=
  [{ domainId := "d", domainName := "D", total := 18, percentage := 0,
     itemScores := List.replicate 5 ratedItemScore }]

/-- 2 rated items and a total of 4 points: the overall percentage is exactly
`50.00`. -/
def fiftyDomainScores : List DomainScore :=
  [{ domainId := "d", domainName := "D", total := 4, percentage := 0,
     itemScores := List.replicate 2 ratedItemScore }]

/-- A draft observation owned by observer `u1`, with a single item score whose
rating is `0` (non-null). -/
def draftObservation : Observation :=
  { id := "obs1", observerId := "u1", teacherId := "t1", branchId := "b1",
    status := ObservationStatus.DRAFT,
    classSection := "5A", totalStudents := 30, presentStudents := 28,
    subject := "Math", topic := "Fractions", date := 1700000000, time := "09:00",
    lessonPlanAttached := true,
    strengths := some "clear voice", areasToImprove := none, suggestions := none,
    reviewerId := none, reviewedAt := none, reviewerComments := none,
    finalizedAt := none,
    itemScores := [{ rubricItemId := "i1", rating := some 0, comment := none }] }

/-- The same observation already reviewed (status `SUBMITTED` would also do for
RETURN_TO_DRAFT; this one is `REVIEWED` with review fields populated). -/
def reviewedObservation : Observation :=
  { draftObservation with
    status := ObservationStatus.REVIEWED,
    reviewerId := some "r1",
    reviewedAt := some 1700000500,
    reviewerComments := some "solid lesson" }

/-- The same observation finalized. -/
def finalizedObservation : Observation :=
  { reviewedObservation with
    status := ObservationStatus.FINALIZED,
    finalizedAt := some 1700001000 }

/-- The session of the owning observer (non-admin). -/
def observerSession : Session := { userId := "u1", role := "OBSERVER" }

/-- A reviewer's session. -/
def reviewerSession : Session := { userId := "r2", role := "REVIEWER" }

/-- An edit body that touches nothing (every field absent). -/
def emptyEditBody : EditBody :=
  { classSection := none, totalStudents := none, presentStudents := none,
    subject := none, topic := none, date := none, time := none,
    lessonPlanAttached := none, strengths := none, areasToImprove := none,
    suggestions := none, itemScores := none }

/-- A single-domain rubric whose only item is `a` (`maxScore` 4). -/
def singleItemDomain : RubricDomain :=
  { id := "d1", name := "Domain 1", items := [{ id := "a", maxScore := 4 }] }

/-- Item `a` rated 0 with a comment. -/
def zeroRatedMap : ScoreMap := [("a", { rating := some 0, comment := some "c" })]

/-- Item `a` left unrated (null rating), same comment. -/
def unratedMap : ScoreMap := [("a", { rating := none, comment := some "c" })]

/-! ## Helper lemmas -/

lemma foldl_add_eq {α : Type} (f : α → ℚ) :
    ∀ (l : List α) (c : ℚ), l.foldl (fun s x => s + f x) c = c + (l.map f).sum := by
  intro l
  induction l with
  | nil => intro c; simp
  | cons x xs ih => intro c; simp [List.foldl_cons, ih (c + f x)]; ring

lemma filter_replicate_eq {α : Type} (p : α → Bool) (a : α) (n : ℕ) :
    (List.replicate n a).filter p = if p a then List.replicate n a else [] := by
  induction n with
  | zero => simp
  | succ k ih =>
    rw [List.replicate_succ, List.filter_cons, ih]
    cases h : p a <;> simp [h, List.replicate_succ]

lemma mkItemScore_rating (m : ScoreMap) (item : RubricItem) :
    (mkItemScore m item).rating = specIncludedRating m item := by
  cases h : lookupScore m item.id with
  | none => simp [mkItemScore, specIncludedRating, jsNumOrUndefined, h]
  | some e =>
    cases hr : e.rating <;>
      simp [mkItemScore, specIncludedRating, jsNumOrUndefined, h, hr]

lemma domainTotalOf_eq_sum (l : List ItemScore) :
    domainTotalOf l = (l.map (fun s => s.rating.getD 0)).sum := by
  unfold domainTotalOf
  rw [show (fun (sum : ℚ) (s : ItemScore) => sum + s.rating.getD 0) =
      (fun (sum : ℚ) s => sum + (fun (t : ItemScore) => t.rating.getD 0) s) from rfl,
    foldl_add_eq]
  simp

lemma applicable_total (m : ScoreMap) (items : List RubricItem) :
    domainTotalOf (applicableItemsOf (items.map (mkItemScore m))) =
      (items.filterMap (specIncludedRating m)).sum := by
  induction items with
  | nil => simp [applicableItemsOf, domainTotalOf]
  | cons it rest ih =>
    rw [List.map_cons, List.filterMap_cons]
    unfold applicableItemsOf at ih ⊢
    rw [List.filter_cons]
    cases h : specIncludedRating m it with
    | none => simp only [mkItemScore_rating, h, Option.isSome_none, if_false]; exact ih
    | some r =>
      simp only [mkItemScore_rating, h, Option.isSome_some, if_true]
      rw [domainTotalOf_eq_sum, List.map_cons, List.sum_cons,
        ← domainTotalOf_eq_sum, ih, List.sum_cons, mkItemScore_rating, h]
      rfl

lemma applicable_count (m : ScoreMap) (items : List RubricItem) :
    (applicableItemsOf (items.map (mkItemScore m))).length =
      (items.filterMap (specIncludedRating m)).length := by
  induction items with
  | nil => simp [applicableItemsOf]
  | cons it rest ih =>
    rw [List.map_cons, List.filterMap_cons]
    unfold applicableItemsOf at ih ⊢
    rw [List.filter_cons]
    cases h : specIncludedRating m it with
    | none => simp only [mkItemScore_rating, h, Option.isSome_none, if_false]; exact ih
    | some r =>
      simp only [mkItemScore_rating, h, Option.isSome_some, if_true, List.length_cons, ih]

lemma calculateDomainScores_eq (domains : List RubricDomain) (m : ScoreMap) :
    calculateDomainScores domains m = domains.map (fun d =>
      { domainId := d.id
        domainName := d.name
        total := (specIncludedRatings m d).sum
        percentage := round2 (rawPercentage (specIncludedRatings m d).sum
          (domainMaxPossibleOf d (specIncludedRatings m d).length))
        itemScores := domainItemScoresOf m d }) := by
  unfold calculateDomainScores
  apply List.map_congr_left
  intro d _
  unfold specIncludedRatings domainItemScoresOf
  dsimp only
  rw [applicable_total, applicable_count]

/-! ## Claim C2 -/

/-- C2: in `calculateDomainScores`, an item contributes to the domain's `total`
and to the percentage denominator only if its score entry has a non-null,
non-zero rating (an item rated exactly 0 is excluded from numerator and
denominator): every output total is the sum of the included items' ratings and
every output percentage is determined by the included items alone; and the
domain with two `maxScore`-4 items, one rated 0 and one rated 3, yields
`total = 3` and `percentage = 75.00`. -/
theorem calculateDomainScores_zero_exclusion :
    (∀ (domains : List RubricDomain) (m : ScoreMap),
      (calculateDomainScores domains m).map (fun out => (out.total, out.percentage)) =
        domains.map (fun d =>
          ((specIncludedRatings m d).sum,
            round2 (rawPercentage (specIncludedRatings m d).sum
              (domainMaxPossibleOf d (specIncludedRatings m d).length))))) ∧
    (calculateDomainScores [zeroExclusionDomain] zeroExclusionScores).map
        (fun out => (out.total, out.percentage)) = [(3, 75)] := by
  constructor
  · intro domains m
    rw [calculateDomainScores_eq, List.map_map]
    rfl
  · rw [calculateDomainScores_eq]
    simp only [zeroExclusionDomain, zeroExclusionScores, specIncludedRatings,
      specIncludedRating, lookupScore, domainMaxPossibleOf, rawPercentage,
      List.find?, List.filterMap, List.map]
    simp
    norm_num [round2, jsRound]

/-! ## Claim C3 -/

/-- C3 counterexample: in a domain whose two items have different `maxScore`
values (4 and 8) and are both rated (3 and 6), the code yields
`percentage = 112.5` — computed from `2 · items[0].maxScore = 8` — while the
claimed formula (denominator = sum of the included items' own `maxScore`,
i.e. 12) would yield `75`. -/
theorem calculateDomainScores_maxPossible_counterexample :
    (calculateDomainScores [mixedMaxDomain] mixedMaxScores).map
        (fun out => (out.total, out.percentage)) = [(9, 225/2)] ∧
    specMaxPossible mixedMaxScores mixedMaxDomain = 12 ∧
    round2 (rawPercentage 9 (specMaxPossible mixedMaxScores mixedMaxDomain)) = 75 ∧
    (225/2 : ℚ) ≠ 75 := by
  refine ⟨?_, ?_, ?_, by norm_num⟩
  · rw [calculateDomainScores_eq]
    simp only [mixedMaxDomain, mixedMaxScores, specIncludedRatings,
      specIncludedRating, lookupScore, domainMaxPossibleOf, rawPercentage,
      List.find?, List.filterMap, List.map]
    simp
    norm_num [round2, jsRound]
  · simp only [mixedMaxDomain, mixedMaxScores, specMaxPossible, specIncludedRating,
      lookupScore, List.find?, List.filter, List.map]
    simp
    norm_num
  · simp only [mixedMaxDomain, mixedMaxScores, specMaxPossible, specIncludedRating,
      lookupScore, List.find?, List.filter, List.map]
    simp
    norm_num [rawPercentage, round2, jsRound]

/-- C3 (amended): each domain's `total` is the sum of the included items'
ratings and its `percentage` is `100 · total / maxPossible` rounded to 2
decimals where `maxPossible` is the COUNT of included items times the FIRST
item's `maxScore` (not the sum of the included items' own `maxScore` values),
and a domain with no included items yields percentage 0 (total function — no
NaN, no exception). -/
theorem calculateDomainScores_percentage_formula :
    (∀ (domains : List RubricDomain) (m : ScoreMap),
      (calculateDomainScores domains m).map (fun out => (out.total, out.percentage)) =
        domains.map (fun d =>
          ((specIncludedRatings m d).sum,
            round2 (rawPercentage (specIncludedRatings m d).sum
              (domainMaxPossibleOf d (specIncludedRatings m d).length))))) ∧
    (∀ (d : RubricDomain) (m : ScoreMap),
      (specIncludedRatings m d).length = 0 →
      (calculateDomainScores [d] m).map DomainScore.percentage = [0]) := by
  constructor
  · intro domains m
    rw [calculateDomainScores_eq, List.map_map]
    rfl
  · intro d m h
    rw [calculateDomainScores_eq]
    have hmax : domainMaxPossibleOf d (specIncludedRatings m d).length = 0 := by
      rw [h]
      cases hitems : d.items <;> simp [domainMaxPossibleOf, hitems]
    simp only [List.map, hmax, rawPercentage]
    norm_num [round2, jsRound]

/-- C3 witness: the amended theorem applied to a concrete domain with no
included items. -/
theorem calculateDomainScores_percentage_formula_witness :
    (specIncludedRatings ([] : ScoreMap) singleItemDomain).length = 0 ∧
    (calculateDomainScores [singleItemDomain] ([] : ScoreMap)).map
      DomainScore.percentage = [0] :=
  ⟨rfl, calculateDomainScores_percentage_formula.2 singleItemDomain [] rfl⟩

/-! ## Overall-rating lemmas -/

lemma calculateGrandTotal_eq (ds : List DomainScore) :
    calculateGrandTotal ds = (ds.map DomainScore.total).sum := by
  unfold calculateGrandTotal
  rw [show (fun (sum : ℚ) (d : DomainScore) => sum + d.total) =
      (fun (sum : ℚ) d => sum + DomainScore.total d) from rfl, foldl_add_eq]
  simp

/-- The Bool test `s.rating !== undefined && s.rating !== 0` of the overall
computation. -/
def ratedForOverall (s : ItemScore) : Bool :=
  decide (s.rating ≠ none ∧ s.rating ≠ some 0)

lemma overallTotalMaxScore_eq (ds : List DomainScore) :
    overallTotalMaxScore ds =
      (ds.map (fun d => ((d.itemScores.filter ratedForOverall).length : ℚ) * 4)).sum := by
  unfold overallTotalMaxScore
  rw [show (fun (sum : ℚ) (d : DomainScore) =>
        sum + ((d.itemScores.filter
          (fun s => decide (s.rating ≠ none ∧ s.rating ≠ some 0))).length : ℚ) * 4) =
      (fun (sum : ℚ) d =>
        sum + (fun (e : DomainScore) =>
          ((e.itemScores.filter ratedForOverall).length : ℚ) * 4) d) from rfl, foldl_add_eq]
  simp

lemma calculateOverallRating_of_ne_nil (ds : List DomainScore)
    (T : List OverallRatingThreshold) (h : ds.length ≠ 0) :
    calculateOverallRating ds T =
      { rating := jsStrOr ((findThresholdFor T
          (overallRoundedPercentage ds)).map OverallRatingThreshold.rating) "Unknown"
        color := jsStrOr ((findThresholdFor T
          (overallRoundedPercentage ds)).map OverallRatingThreshold.color) "gray"
        percentage := overallRoundedPercentage ds } := by
  unfold calculateOverallRating
  rw [if_neg h]

lemma overallRating_rating_determined (ds : List DomainScore)
    (T : List OverallRatingThreshold) (p : ℚ)
    (h : (calculateOverallRating ds T).percentage = p) (hp : p ≠ 0) :
    (calculateOverallRating ds T).rating =
      jsStrOr ((findThresholdFor T p).map OverallRatingThreshold.rating) "Unknown" := by
  by_cases hlen : ds.length = 0
  · exfalso
    apply hp
    rw [← h]
    unfold calculateOverallRating
    rw [if_pos hlen]
  · rw [calculateOverallRating_of_ne_nil ds T hlen] at h ⊢
    simp only at h
    rw [h]

/-! ## Claim C7 -/

/-- C7: `calculateOverallRating` on an empty list returns
`{rating: "No Data", color: "gray", percentage: 0}` for every threshold table
(so without consulting the thresholds); otherwise its percentage is
`100 · grandTotal / totalMaxScore` rounded to 2 decimals (0 when the
denominator is 0), where `grandTotal` is the sum of the domain totals and
`totalMaxScore` is the sum over domains of (count of rated items) · 4 — a
hardcoded per-item maximum of 4. -/
theorem calculateOverallRating_formula :
    (∀ T, calculateOverallRating [] T =
      { rating := "No Data", color := "gray", percentage := 0 }) ∧
    (∀ ds T, ds.length ≠ 0 →
      (calculateOverallRating ds T).percentage =
        round2 (rawPercentage ((ds.map DomainScore.total).sum) (overallTotalMaxScore ds))) ∧
    (∀ ds, overallTotalMaxScore ds =
      (ds.map (fun d => ((d.itemScores.filter ratedForOverall).length : ℚ) * 4)).sum) ∧
    (∀ ds T, ds.length ≠ 0 → overallTotalMaxScore ds = 0 →
      (calculateOverallRating ds T).percentage = 0) := by
  refine ⟨fun T => rfl, ?_, overallTotalMaxScore_eq, ?_⟩
  · intro ds T h
    rw [calculateOverallRating_of_ne_nil ds T h]
    simp only [overallRoundedPercentage, calculateGrandTotal_eq]
  · intro ds T h hmax
    rw [calculateOverallRating_of_ne_nil ds T h]
    simp only [overallRoundedPercentage, hmax, rawPercentage]
    norm_num [round2, jsRound]

/-- C7 witness: the percentage formula applied to a concrete non-empty
domain-score list. -/
theorem calculateOverallRating_formula_witness :
    ninetyDomainScores.length ≠ 0 ∧
    (calculateOverallRating ninetyDomainScores DEFAULT_OVERALL_RATING_THRESHOLDS).percentage =
      round2 (rawPercentage ((ninetyDomainScores.map DomainScore.total).sum)
        (overallTotalMaxScore ninetyDomainScores)) :=
  ⟨by simp [ninetyDomainScores],
   calculateOverallRating_formula.2.1 ninetyDomainScores DEFAULT_OVERALL_RATING_THRESHOLDS
     (by simp [ninetyDomainScores])⟩

/-! ## Claim C1 -/

lemma overallPct_single (tot : ℚ) (n : ℕ) :
    overallRoundedPercentage
      [{ domainId := "d", domainName := "D", total := tot, percentage := 0,
         itemScores := List.replicate n ratedItemScore }] =
      round2 (rawPercentage tot ((n : ℚ) * 4)) := by
  unfold overallRoundedPercentage
  rw [calculateGrandTotal_eq, overallTotalMaxScore_eq]
  simp [filter_replicate_eq, ratedForOverall, ratedItemScore]

lemma pct_gap :
    (calculateOverallRating gapDomainScores DEFAULT_OVERALL_RATING_THRESHOLDS).percentage =
      8999/100 := by
  rw [calculateOverallRating_of_ne_nil _ _ (by decide)]
  show overallRoundedPercentage gapDomainScores = 8999/100
  unfold gapDomainScores
  rw [overallPct_single]
  norm_num [rawPercentage, round2, jsRound]

lemma pct_ninety :
    (calculateOverallRating ninetyDomainScores DEFAULT_OVERALL_RATING_THRESHOLDS).percentage =
      90 := by
  rw [calculateOverallRating_of_ne_nil _ _ (by decide)]
  show overallRoundedPercentage ninetyDomainScores = 90
  unfold ninetyDomainScores
  rw [overallPct_single]
  norm_num [rawPercentage, round2, jsRound]

lemma pct_fifty :
    (calculateOverallRating fiftyDomainScores DEFAULT_OVERALL_RATING_THRESHOLDS).percentage =
      50 := by
  rw [calculateOverallRating_of_ne_nil _ _ (by decide)]
  show overallRoundedPercentage fiftyDomainScores = 50
  unfold fiftyDomainScores
  rw [overallPct_single]
  norm_num [rawPercentage, round2, jsRound]

lemma find_90 : findThresholdFor DEFAULT_OVERALL_RATING_THRESHOLDS 90 =
    some { minPercentage := 90, maxPercentage := 100, rating := "Excellent", color := "success" } := by
  norm_num [findThresholdFor, DEFAULT_OVERALL_RATING_THRESHOLDS, List.find?]

lemma find_8999 : findThresholdFor DEFAULT_OVERALL_RATING_THRESHOLDS (8999/100) = none := by
  norm_num [findThresholdFor, DEFAULT_OVERALL_RATING_THRESHOLDS, List.find?]

lemma find_50 : findThresholdFor DEFAULT_OVERALL_RATING_THRESHOLDS 50 =
    some { minPercentage := 50, maxPercentage := 59, rating := "Weak", color := "warning" } := by
  norm_num [findThresholdFor, DEFAULT_OVERALL_RATING_THRESHOLDS, List.find?]

lemma find_4999 : findThresholdFor DEFAULT_OVERALL_RATING_THRESHOLDS (4999/100) = none := by
  norm_num [findThresholdFor, DEFAULT_OVERALL_RATING_THRESHOLDS, List.find?]

/-- C1 counterexample: a domain-score list whose rounded overall percentage is
exactly `89.99` gets rating `"Unknown"`, not `"Good"` — with the default table
the bands `75–89` and `90–100` leave a gap, and the source's `find` matches no
band at `89.99`. -/
theorem calculateOverallRating_gap_counterexample :
    (calculateOverallRating gapDomainScores DEFAULT_OVERALL_RATING_THRESHOLDS).percentage =
      8999/100 ∧
    (calculateOverallRating gapDomainScores DEFAULT_OVERALL_RATING_THRESHOLDS).rating =
      "Unknown" ∧
    "Unknown" ≠ "Good" := by
  refine ⟨pct_gap, ?_, by decide⟩
  rw [overallRating_rating_determined gapDomainScores _ (8999/100) pct_gap (by norm_num),
    find_8999]
  rfl

/-- C1 (amended): `calculateOverallRating` assigns the rating of the first
threshold band containing the rounded overall percentage (bands inclusive on
both ends, evaluated in order, first match wins; the band's rating must be a
non-empty string, and `"Unknown"` is returned when no band matches); with the
default table a rounded percentage of `90.00` yields `"Excellent"` and `50.00`
yields `"Weak"`, while `89.99` and `49.99` fall in the gaps between bands and
yield `"Unknown"`. -/
theorem calculateOverallRating_threshold_bands :
    (∀ (T : List OverallRatingThreshold) (ds : List DomainScore) (b : OverallRatingThreshold),
      ds.length ≠ 0 →
      findThresholdFor T (overallRoundedPercentage ds) = some b →
      b.rating ≠ "" →
      (calculateOverallRating ds T).rating = b.rating) ∧
    (∀ (T : List OverallRatingThreshold) (ds : List DomainScore),
      ds.length ≠ 0 →
      findThresholdFor T (overallRoundedPercentage ds) = none →
      (calculateOverallRating ds T).rating = "Unknown") ∧
    (∀ ds, (calculateOverallRating ds DEFAULT_OVERALL_RATING_THRESHOLDS).percentage = 90 →
      (calculateOverallRating ds DEFAULT_OVERALL_RATING_THRESHOLDS).rating = "Excellent") ∧
    (∀ ds, (calculateOverallRating ds DEFAULT_OVERALL_RATING_THRESHOLDS).percentage = 8999/100 →
      (calculateOverallRating ds DEFAULT_OVERALL_RATING_THRESHOLDS).rating = "Unknown") ∧
    (∀ ds, (calculateOverallRating ds DEFAULT_OVERALL_RATING_THRESHOLDS).percentage = 50 →
      (calculateOverallRating ds DEFAULT_OVERALL_RATING_THRESHOLDS).rating = "Weak") ∧
    (∀ ds, (calculateOverallRating ds DEFAULT_OVERALL_RATING_THRESHOLDS).percentage = 4999/100 →
      (calculateOverallRating ds DEFAULT_OVERALL_RATING_THRESHOLDS).rating = "Unknown") := by
  refine ⟨?_, ?_, ?_, ?_, ?_, ?_⟩
  · intro T ds b hlen hfind hne
    rw [calculateOverallRating_of_ne_nil ds T hlen]
    show jsStrOr ((findThresholdFor T (overallRoundedPercentage ds)).map
      OverallRatingThreshold.rating) "Unknown" = b.rating
    rw [hfind]
    simp [jsStrOr, hne]
  · intro T ds hlen hfind
    rw [calculateOverallRating_of_ne_nil ds T hlen]
    show jsStrOr ((findThresholdFor T (overallRoundedPercentage ds)).map
      OverallRatingThreshold.rating) "Unknown" = "Unknown"
    rw [hfind]
    rfl
  · intro ds h
    rw [overallRating_rating_determined ds _ 90 h (by norm_num), find_90]
    rfl
  · intro ds h
    rw [overallRating_rating_determined ds _ (8999/100) h (by norm_num), find_8999]
    rfl
  · intro ds h
    rw [overallRating_rating_determined ds _ 50 h (by norm_num), find_50]
    rfl
  · intro ds h
    rw [overallRating_rating_determined ds _ (4999/100) h (by norm_num), find_4999]
    rfl

/-- C1 witness: the amended theorem applied at concrete inputs whose rounded
percentages are exactly 90.00 and 50.00. -/
theorem calculateOverallRating_threshold_bands_witness :
    (calculateOverallRating ninetyDomainScores DEFAULT_OVERALL_RATING_THRESHOLDS).rating =
      "Excellent" ∧
    (calculateOverallRating fiftyDomainScores DEFAULT_OVERALL_RATING_THRESHOLDS).rating =
      "Weak" :=
  ⟨calculateOverallRating_threshold_bands.2.2.1 ninetyDomainScores pct_ninety,
   calculateOverallRating_threshold_bands.2.2.2.2.1 fiftyDomainScores pct_fifty⟩

/-! ## Claim C8 -/

/-- C8 counterexample: with `totalStudents = -1`, `presentStudents = -1` and no
ratings, `validateObservationData` returns exactly 3 errors, not 4 — the rule
`presentStudents > totalStudents` does not fire because `-1 > -1` is false. -/
theorem validateObservationData_counterexample :
    (validateObservationData
      { totalStudents := -1, presentStudents := -1, itemScores := [] }).errors =
      ["Total students must be greater than 0",
       "Present students cannot be negative",
       "At least one rubric item must be scored"] ∧
    (validateObservationData
      { totalStudents := -1, presentStudents := -1, itemScores := [] }).errors.length ≠ 4 := by
  constructor
  · norm_num [validateObservationData, hasScores]
  · norm_num [validateObservationData, hasScores]

/-- C8 (amended): `validateObservationData` evaluates all four rules without
short-circuiting — the error count is the number of violated rules and each
violated rule contributes its own distinct message — and `isValid` is true
exactly when the error list is empty; for the input `totalStudents = -1`,
`presentStudents = -1`, no ratings, it returns exactly the 3 errors of rules
1, 2 and 4 (rule 3 does not fire since `-1 > -1` is false). -/
theorem validateObservationData_rules :
    (∀ (data : ObservationValidationInput),
      ((validateObservationData data).errors.length =
        (if data.totalStudents ≤ 0 then 1 else 0) +
        (if data.presentStudents < 0 then 1 else 0) +
        (if data.presentStudents > data.totalStudents then 1 else 0) +
        (if hasScores data.itemScores then 0 else 1)) ∧
      ("Total students must be greater than 0" ∈ (validateObservationData data).errors ↔
        data.totalStudents ≤ 0) ∧
      ("Present students cannot be negative" ∈ (validateObservationData data).errors ↔
        data.presentStudents < 0) ∧
      ("Present students cannot exceed total students" ∈ (validateObservationData data).errors ↔
        data.presentStudents > data.totalStudents) ∧
      ("At least one rubric item must be scored" ∈ (validateObservationData data).errors ↔
        hasScores data.itemScores = false) ∧
      ((validateObservationData data).isValid = true ↔
        (validateObservationData data).errors = [])) ∧
    (validateObservationData
      { totalStudents := -1, presentStudents := -1, itemScores := [] }).errors =
      ["Total students must be greater than 0",
       "Present students cannot be negative",
       "At least one rubric item must be scored"] := by
  constructor
  · intro data
    by_cases h1 : data.totalStudents ≤ 0 <;>
      by_cases h2 : data.presentStudents < 0 <;>
        by_cases h3 : data.presentStudents > data.totalStudents <;>
          by_cases h4 : hasScores data.itemScores <;>
            simp [validateObservationData, h1, h2, h3, h4]
  · norm_num [validateObservationData, hasScores]

/-! ## Claim C4 -/

lemma observationStatusPUT_submit (sess : Session) (obs : Observation)
    (rc : Option String) (now : Nat) (auditOk : Bool) :
    observationStatusPUT sess obs "SUBMIT" rc now auditOk =
      (if obs.observerId ≠ sess.userId ∧ sess.role ≠ "ADMIN" then
        transitionErr obs "Forbidden" 403
      else if obs.status ≠ ObservationStatus.DRAFT then
        transitionErr obs "Only draft observations can be submitted" 400
      else if (obs.itemScores.filter (fun s => decide (s.rating ≠ none))).length = 0 then
        transitionErr obs "At least one rubric item must be rated before submission" 400
      else
        finishTransition sess obs { obs with status := ObservationStatus.SUBMITTED }
          "SUBMIT" "Submitted observation for review" auditOk) := by
  rfl

/-- C4: a SUBMIT request succeeds (status becomes `SUBMITTED`) iff the actor is
the observation's observer or an admin, the status is `DRAFT`, and at least one
item score has a non-null rating (a rating of exactly 0 counts as rated); each
failed precondition yields its own distinct error, leaves the observation
unchanged, and writes no audit entry. -/
theorem submit_transition_spec :
    ∀ (sess : Session) (obs : Observation) (rc : Option String) (now : Nat),
      (((observationStatusPUT sess obs "SUBMIT" rc now true).response =
          ApiResponse.ok { obs with status := ObservationStatus.SUBMITTED } ∧
        (observationStatusPUT sess obs "SUBMIT" rc now true).db =
          { obs with status := ObservationStatus.SUBMITTED }) ↔
        ((obs.observerId = sess.userId ∨ sess.role = "ADMIN") ∧
          obs.status = ObservationStatus.DRAFT ∧
          (obs.itemScores.filter (fun s => decide (s.rating ≠ none))).length ≠ 0)) ∧
      (¬ (obs.observerId = sess.userId ∨ sess.role = "ADMIN") →
        observationStatusPUT sess obs "SUBMIT" rc now true =
          transitionErr obs "Forbidden" 403) ∧
      ((obs.observerId = sess.userId ∨ sess.role = "ADMIN") →
        obs.status ≠ ObservationStatus.DRAFT →
        observationStatusPUT sess obs "SUBMIT" rc now true =
          transitionErr obs "Only draft observations can be submitted" 400) ∧
      ((obs.observerId = sess.userId ∨ sess.role = "ADMIN") →
        obs.status = ObservationStatus.DRAFT →
        (obs.itemScores.filter (fun s => decide (s.rating ≠ none))).length = 0 →
        observationStatusPUT sess obs "SUBMIT" rc now true =
          transitionErr obs "At least one rubric item must be rated before submission" 400) ∧
      (∀ msg code, (observationStatusPUT sess obs "SUBMIT" rc now true).response =
          ApiResponse.err msg code →
        (observationStatusPUT sess obs "SUBMIT" rc now true).db = obs ∧
        (observationStatusPUT sess obs "SUBMIT" rc now true).audit = []) := by
  intro sess obs rc now
  rw [observationStatusPUT_submit]
  by_cases hA : obs.observerId ≠ sess.userId ∧ sess.role ≠ "ADMIN"
  · have hAB : ¬ (obs.observerId = sess.userId ∨ sess.role = "ADMIN") := by tauto
    rw [if_pos hA]
    refine ⟨?_, ?_, ?_, ?_, ?_⟩
    · simp [transitionErr, hAB]
    · intro _; rfl
    · intro h; exact absurd h hAB
    · intro h; exact absurd h hAB
    · intro msg code _; exact ⟨rfl, rfl⟩
  · have hAB : obs.observerId = sess.userId ∨ sess.role = "ADMIN" := by tauto
    rw [if_neg hA]
    by_cases hD : obs.status = ObservationStatus.DRAFT
    · rw [if_neg (fun h => h hD)]
      by_cases hC : (obs.itemScores.filter (fun s => decide (s.rating ≠ none))).length = 0
      · rw [if_pos hC]
        refine ⟨?_, ?_, ?_, ?_, ?_⟩
        · simp [transitionErr, hAB, hD]
          simpa using hC
        · intro h; exact absurd hAB h
        · intro _ h; exact absurd hD h
        · intro _ _ _; rfl
        · intro msg code _; exact ⟨rfl, rfl⟩
      · rw [if_neg hC]
        refine ⟨?_, ?_, ?_, ?_, ?_⟩
        · simp [finishTransition, hAB, hD]
          simpa using hC
        · intro h; exact absurd hAB h
        · intro _ h; exact absurd hD h
        · intro _ _ h; exact absurd h hC
        · intro msg code h
          exfalso
          simp [finishTransition] at h
    · rw [if_pos hD]
      refine ⟨?_, ?_, ?_, ?_, ?_⟩
      · simp [transitionErr, hD]
      · intro h; exact absurd hAB h
      · intro _ _; rfl
      · intro _ h; exact absurd h hD
      · intro msg code _; exact ⟨rfl, rfl⟩

/-- C4 witness: the observer submits a draft observation whose single item is
rated exactly 0 — the zero rating counts as rated and the submission succeeds. -/
theorem submit_transition_spec_witness :
    (observationStatusPUT observerSession draftObservation "SUBMIT" none 1700000100 true).response =
      ApiResponse.ok { draftObservation with status := ObservationStatus.SUBMITTED } ∧
    (observationStatusPUT observerSession draftObservation "SUBMIT" none 1700000100 true).db =
      { draftObservation with status := ObservationStatus.SUBMITTED } :=
  (submit_transition_spec observerSession draftObservation none 1700000100).1.mpr
    ⟨Or.inl rfl, rfl, by decide⟩

/-! ## Claims C5 and C6 -/

lemma observationStatusPUT_review (sess : Session) (obs : Observation)
    (rc : Option String) (now : Nat) (auditOk : Bool) :
    observationStatusPUT sess obs "REVIEW" rc now auditOk =
      (if ¬ (["REVIEWER", "ADMIN"].contains sess.role) then
        transitionErr obs "Forbidden" 403
      else if obs.status ≠ ObservationStatus.SUBMITTED then
        transitionErr obs "Only submitted observations can be reviewed" 400
      else
        finishTransition sess obs
          { obs with status := ObservationStatus.REVIEWED
                     reviewerId := some sess.userId
                     reviewedAt := some now
                     reviewerComments := sanitizeReviewerComments rc }
          "REVIEW" "Reviewed observation" auditOk) := by
  rfl

lemma observationStatusPUT_finalize (sess : Session) (obs : Observation)
    (rc : Option String) (now : Nat) (auditOk : Bool) :
    observationStatusPUT sess obs "FINALIZE" rc now auditOk =
      (if ¬ (["REVIEWER", "ADMIN"].contains sess.role) then
        transitionErr obs "Forbidden" 403
      else if obs.status ≠ ObservationStatus.REVIEWED then
        transitionErr obs "Only reviewed observations can be finalized" 400
      else
        finishTransition sess obs
          { obs with status := ObservationStatus.FINALIZED, finalizedAt := some now }
          "FINALIZE" "Finalized observation" auditOk) := by
  rfl

lemma observationStatusPUT_return (sess : Session) (obs : Observation)
    (rc : Option String) (now : Nat) (auditOk : Bool) :
    observationStatusPUT sess obs "RETURN_TO_DRAFT" rc now auditOk =
      (if ¬ (["REVIEWER", "ADMIN"].contains sess.role) then
        transitionErr obs "Forbidden" 403
      else if ¬ ([ObservationStatus.SUBMITTED, ObservationStatus.REVIEWED].contains obs.status) then
        transitionErr obs "Only submitted or reviewed observations can be returned to draft" 400
      else
        finishTransition sess obs
          { obs with status := ObservationStatus.DRAFT
                     reviewerId := none
                     reviewedAt := none
                     reviewerComments := none }
          "RETURN_TO_DRAFT" "Returned observation to draft" auditOk) := by
  rfl

lemma observationStatusPUT_invalid (sess : Session) (obs : Observation)
    (action : String) (rc : Option String) (now : Nat) (auditOk : Bool)
    (h1 : action ≠ "SUBMIT") (h2 : action ≠ "REVIEW") (h3 : action ≠ "FINALIZE")
    (h4 : action ≠ "RETURN_TO_DRAFT") :
    observationStatusPUT sess obs action rc now auditOk =
      transitionErr obs
        "Valid action is required: SUBMIT, REVIEW, FINALIZE, or RETURN_TO_DRAFT" 400 := by
  have hco : (["SUBMIT", "REVIEW", "FINALIZE", "RETURN_TO_DRAFT"].contains action) = false := by
    simp [h1, h2, h3, h4]
  unfold observationStatusPUT
  rw [hco]
  simp

/-- C5: `FINALIZED` is terminal — on a finalized observation every status
transition (any action string), every edit and the delete are rejected with an
error regardless of the actor, the stored observation is unchanged, and no
audit entry is written. -/
theorem finalized_terminal :
    ∀ (sess : Session) (obs : Observation) (action : String) (rc : Option String)
      (now : Nat) (auditOk : Bool) (body : EditBody),
      obs.status = ObservationStatus.FINALIZED →
      ((observationStatusPUT sess obs action rc now auditOk).response.isErr = true ∧
        (observationStatusPUT sess obs action rc now auditOk).db = obs ∧
        (observationStatusPUT sess obs action rc now auditOk).audit = []) ∧
      ((observationEditPUT sess obs body auditOk).response.isErr = true ∧
        (observationEditPUT sess obs body auditOk).db = obs ∧
        (observationEditPUT sess obs body auditOk).audit = []) ∧
      ((observationDELETE sess obs auditOk).response.isErr = true ∧
        (observationDELETE sess obs auditOk).db = some obs ∧
        (observationDELETE sess obs auditOk).audit = []) := by
  intro sess obs action rc now auditOk body h
  refine ⟨?_, ?_, ?_⟩
  · by_cases h1 : action = "SUBMIT"
    · subst h1
      rw [observationStatusPUT_submit]
      by_cases hx : obs.observerId ≠ sess.userId ∧ sess.role ≠ "ADMIN"
      · rw [if_pos hx]; exact ⟨rfl, rfl, rfl⟩
      · rw [if_neg hx,
          if_pos (show obs.status ≠ ObservationStatus.DRAFT by rw [h]; decide)]
        exact ⟨rfl, rfl, rfl⟩
    · by_cases h2 : action = "REVIEW"
      · subst h2
        rw [observationStatusPUT_review]
        by_cases hx : ¬ (["REVIEWER", "ADMIN"].contains sess.role)
        · rw [if_pos hx]; exact ⟨rfl, rfl, rfl⟩
        · rw [if_neg hx,
            if_pos (show obs.status ≠ ObservationStatus.SUBMITTED by rw [h]; decide)]
          exact ⟨rfl, rfl, rfl⟩
      · by_cases h3 : action = "FINALIZE"
        · subst h3
          rw [observationStatusPUT_finalize]
          by_cases hx : ¬ (["REVIEWER", "ADMIN"].contains sess.role)
          · rw [if_pos hx]; exact ⟨rfl, rfl, rfl⟩
          · rw [if_neg hx,
              if_pos (show obs.status ≠ ObservationStatus.REVIEWED by rw [h]; decide)]
            exact ⟨rfl, rfl, rfl⟩
        · by_cases h4 : action = "RETURN_TO_DRAFT"
          · subst h4
            rw [observationStatusPUT_return]
            by_cases hx : ¬ (["REVIEWER", "ADMIN"].contains sess.role)
            · rw [if_pos hx]; exact ⟨rfl, rfl, rfl⟩
            · rw [if_neg hx, if_pos (show
                ¬ ([ObservationStatus.SUBMITTED, ObservationStatus.REVIEWED].contains obs.status)
                by rw [h]; decide)]
              exact ⟨rfl, rfl, rfl⟩
          · rw [observationStatusPUT_invalid sess obs action rc now auditOk h1 h2 h3 h4]
            exact ⟨rfl, rfl, rfl⟩
  · unfold observationEditPUT
    by_cases hx : obs.observerId ≠ sess.userId ∧ sess.role ≠ "ADMIN"
    · rw [if_pos hx]; exact ⟨rfl, rfl, rfl⟩
    · rw [if_neg hx, if_pos h]; exact ⟨rfl, rfl, rfl⟩
  · unfold observationDELETE
    by_cases hx : obs.observerId ≠ sess.userId ∧ sess.role ≠ "ADMIN"
    · rw [if_pos hx]; exact ⟨rfl, rfl, rfl⟩
    · rw [if_neg hx, if_pos h]; exact ⟨rfl, rfl, rfl⟩

/-- C5 witness: the terminal-immutability theorem applied to a concrete
finalized observation, for an admin actor and the FINALIZE action. -/
theorem finalized_terminal_witness :
    finalizedObservation.status = ObservationStatus.FINALIZED ∧
    (observationStatusPUT { userId := "a1", role := "ADMIN" } finalizedObservation
      "FINALIZE" none 7 true).response.isErr = true ∧
    (observationStatusPUT { userId := "a1", role := "ADMIN" } finalizedObservation
      "FINALIZE" none 7 true).db = finalizedObservation :=
  ⟨rfl,
   (finalized_terminal { userId := "a1", role := "ADMIN" } finalizedObservation
      "FINALIZE" none 7 true emptyEditBody rfl).1.1,
   (finalized_terminal { userId := "a1", role := "ADMIN" } finalizedObservation
      "FINALIZE" none 7 true emptyEditBody rfl).1.2.1⟩

/-- C6: a successful RETURN_TO_DRAFT (reviewer or admin, on a SUBMITTED or
REVIEWED observation) sets the status to DRAFT and clears exactly the reviewer
id, the review timestamp and the reviewer comments; every other field,
including the item scores, is unchanged. -/
theorem return_to_draft_spec :
    ∀ (sess : Session) (obs : Observation) (rc : Option String) (now : Nat),
      (sess.role = "REVIEWER" ∨ sess.role = "ADMIN") →
      (obs.status = ObservationStatus.SUBMITTED ∨ obs.status = ObservationStatus.REVIEWED) →
      (observationStatusPUT sess obs "RETURN_TO_DRAFT" rc now true).response =
        ApiResponse.ok
          { obs with
              status := ObservationStatus.DRAFT
              reviewerId := none
              reviewedAt := none
              reviewerComments := none } ∧
      (observationStatusPUT sess obs "RETURN_TO_DRAFT" rc now true).db =
        { obs with
            status := ObservationStatus.DRAFT
            reviewerId := none
            reviewedAt := none
            reviewerComments := none } ∧
      (observationStatusPUT sess obs "RETURN_TO_DRAFT" rc now true).db.itemScores =
        obs.itemScores ∧
      (observationStatusPUT sess obs "RETURN_TO_DRAFT" rc now true).db.observerId =
        obs.observerId ∧
      (observationStatusPUT sess obs "RETURN_TO_DRAFT" rc now true).db.teacherId =
        obs.teacherId ∧
      (observationStatusPUT sess obs "RETURN_TO_DRAFT" rc now true).db.classSection =
        obs.classSection ∧
      (observationStatusPUT sess obs "RETURN_TO_DRAFT" rc now true).db.strengths =
        obs.strengths ∧
      (observationStatusPUT sess obs "RETURN_TO_DRAFT" rc now true).db.finalizedAt =
        obs.finalizedAt := by
  intro sess obs rc now hRole hStatus
  have hrc : (["REVIEWER", "ADMIN"].contains sess.role) = true := by
    rcases hRole with h | h <;> simp [h]
  have hsc : ([ObservationStatus.SUBMITTED, ObservationStatus.REVIEWED].contains obs.status)
      = true := by
    rcases hStatus with h | h <;> simp [h]
  rw [observationStatusPUT_return, if_neg (fun hcon => hcon hrc),
    if_neg (fun hcon => hcon hsc)]
  exact ⟨rfl, rfl, rfl, rfl, rfl, rfl, rfl, rfl⟩

/-- C6 witness: a reviewer returns a concrete reviewed observation (with
populated review fields) to draft. -/
theorem return_to_draft_spec_witness :
    (observationStatusPUT reviewerSession reviewedObservation "RETURN_TO_DRAFT"
      none 1700000600 true).db =
      { reviewedObservation with
          status := ObservationStatus.DRAFT
          reviewerId := none
          reviewedAt := none
          reviewerComments := none } ∧
    (observationStatusPUT reviewerSession reviewedObservation "RETURN_TO_DRAFT"
      none 1700000600 true).db.itemScores = reviewedObservation.itemScores :=
  ⟨(return_to_draft_spec reviewerSession reviewedObservation none 1700000600
      (Or.inl rfl) (Or.inr rfl)).2.1,
   (return_to_draft_spec reviewerSession reviewedObservation none 1700000600
      (Or.inl rfl) (Or.inr rfl)).2.2.1⟩


/-! ## Claim C9 -/

/-- C9 counterexample: on the SUBMIT route, when the audit-log insert fails
after `prisma.observation.update` succeeded, the stored observation IS
`SUBMITTED` (the mutation is not rolled back) yet the caller receives
`{error: "Internal server error"}, 500` — the failure is caught only by the
route's generic catch-all and an error DOES propagate to the caller,
contradicting the claim that it is swallowed for every mutating operation. -/
theorem audit_failure_counterexample :
    (observationStatusPUT observerSession draftObservation "SUBMIT" none 1700000100 false).db =
      { draftObservation with status := ObservationStatus.SUBMITTED } ∧
    (observationStatusPUT observerSession draftObservation "SUBMIT" none 1700000100 false).response =
      ApiResponse.err "Internal server error" 500 ∧
    (observationStatusPUT observerSession draftObservation "SUBMIT"
      none 1700000100 false).response.isErr = true :=
  ⟨rfl, rfl, rfl⟩

/-- C9 (amended): an audit-log write failure never rolls back the primary
mutation, and the `createAuditLog` helper (used by the backup routes) catches
the failure and returns `null` without throwing; but the observation
transition and delete routes run the audit insert inside the request handler's
`try`, so there a failure surfaces to the caller as a 500 Internal-server-error
response while the already-applied mutation (status change, deletion) persists
and no audit row is written. -/
theorem audit_failure_behavior :
    (∀ p : CreateAuditLogParams, createAuditLog p false = none) ∧
    (∀ (sess : Session) (obs : Observation) (rc : Option String) (now : Nat),
      (obs.observerId = sess.userId ∨ sess.role = "ADMIN") →
      obs.status = ObservationStatus.DRAFT →
      (obs.itemScores.filter (fun s => decide (s.rating ≠ none))).length ≠ 0 →
      (observationStatusPUT sess obs "SUBMIT" rc now false).db =
        { obs with status := ObservationStatus.SUBMITTED } ∧
      (observationStatusPUT sess obs "SUBMIT" rc now false).response =
        ApiResponse.err "Internal server error" 500 ∧
      (observationStatusPUT sess obs "SUBMIT" rc now false).audit = []) ∧
    (∀ (sess : Session) (obs : Observation) (body : EditBody),
      (obs.observerId = sess.userId ∨ sess.role = "ADMIN") →
      obs.status ≠ ObservationStatus.FINALIZED →
      (match body.presentStudents, body.totalStudents with
        | some p, some t => decide (p > t)
        | _, _ => false) = false →
      (observationEditPUT sess obs body false).db =
        applyEditScores (applyEditFields obs body) body ∧
      (observationEditPUT sess obs body false).response =
        ApiResponse.err "Internal server error" 500 ∧
      (observationEditPUT sess obs body false).audit = []) ∧
    (∀ (sess : Session) (obs : Observation),
      (obs.observerId = sess.userId ∨ sess.role = "ADMIN") →
      obs.status ≠ ObservationStatus.FINALIZED →
      (observationDELETE sess obs false).db = none ∧
      (observationDELETE sess obs false).response =
        ApiResponse.err "Internal server error" 500 ∧
      (observationDELETE sess obs false).audit = []) := by
  refine ⟨fun p => rfl, ?_, ?_, ?_⟩
  · intro sess obs rc now hAB hD hC
    rw [observationStatusPUT_submit, if_neg (by tauto), if_neg (fun hh => hh hD),
      if_neg hC]
    exact ⟨rfl, rfl, rfl⟩
  · intro sess obs body hAB hFin hPT
    unfold observationEditPUT
    rw [if_neg (by tauto), if_neg hFin, if_neg (by simp [hPT])]
    exact ⟨rfl, rfl, rfl⟩
  · intro sess obs hAB hFin
    unfold observationDELETE
    rw [if_neg (by tauto), if_neg hFin]
    exact ⟨rfl, rfl, rfl⟩

/-- C9 witness: the amended theorem applied to a concrete draft observation
submitted, edited and deleted by its observer with a failing audit write. -/
theorem audit_failure_behavior_witness :
    ((observationStatusPUT observerSession draftObservation "SUBMIT" none 42 false).db =
      { draftObservation with status := ObservationStatus.SUBMITTED } ∧
    (observationStatusPUT observerSession draftObservation "SUBMIT" none 42 false).response =
      ApiResponse.err "Internal server error" 500 ∧
    (observationStatusPUT observerSession draftObservation "SUBMIT" none 42 false).audit = []) ∧
    ((observationEditPUT observerSession draftObservation emptyEditBody false).db =
      applyEditScores (applyEditFields draftObservation emptyEditBody) emptyEditBody ∧
    (observationEditPUT observerSession draftObservation emptyEditBody false).response =
      ApiResponse.err "Internal server error" 500 ∧
    (observationEditPUT observerSession draftObservation emptyEditBody false).audit = []) ∧
    ((observationDELETE observerSession draftObservation false).db = none ∧
    (observationDELETE observerSession draftObservation false).response =
      ApiResponse.err "Internal server error" 500 ∧
    (observationDELETE observerSession draftObservation false).audit = []) :=
  ⟨audit_failure_behavior.2.1 observerSession draftObservation none 42
      (Or.inl rfl) rfl (by decide),
   audit_failure_behavior.2.2.1 observerSession draftObservation emptyEditBody
      (Or.inl rfl) (by decide) rfl,
   audit_failure_behavior.2.2.2 observerSession draftObservation
      (Or.inl rfl) (by decide)⟩

/-! ## Claim C10 -/

lemma specIncludedRating_ne_zero (m : ScoreMap) (item : RubricItem) :
    specIncludedRating m item ≠ some 0 := by
  unfold specIncludedRating
  cases h : lookupScore m item.id with
  | none => simp
  | some e =>
    cases hr : e.rating with
    | none => simp [hr]
    | some r =>
      by_cases hz : r = 0 <;> simp [hr, hz]

lemma jsStrOrUndefined_ne_empty (o : Option String) :
    jsStrOrUndefined o ≠ some "" := by
  unfold jsStrOrUndefined
  cases o with
  | none => simp
  | some s => by_cases hs : s = "" <;> simp [hs]

/-- C10 (implicit): no item score returned by `calculateDomainScores` carries a
rating of 0 or an empty-string comment (both are coerced to `undefined` before
filtering); consequently two score maps that differ only in rating some items
0 versus leaving them unrated produce identical outputs. -/
theorem calculateDomainScores_zero_is_unrated :
    (∀ (domains : List RubricDomain) (m : ScoreMap),
      ∀ out ∈ calculateDomainScores domains m, ∀ s ∈ out.itemScores,
        s.rating ≠ some 0 ∧ s.comment ≠ some "") ∧
    (∀ (domains : List RubricDomain) (m1 m2 : ScoreMap),
      (∀ id : String,
        lookupScore m2 id = lookupScore m1 id ∨
        (∃ e : ScoreEntry, lookupScore m1 id = some e ∧ e.rating = some 0 ∧
          lookupScore m2 id = some { e with rating := none })) →
      calculateDomainScores domains m1 = calculateDomainScores domains m2) := by
  constructor
  · intro domains m out hout s hs
    rw [calculateDomainScores_eq] at hout
    obtain ⟨d, _, hd⟩ := List.mem_map.mp hout
    rw [← hd] at hs
    simp only [domainItemScoresOf] at hs
    obtain ⟨item, _, hitem⟩ := List.mem_map.mp hs
    constructor
    · rw [← hitem, mkItemScore_rating]
      exact specIncludedRating_ne_zero m item
    · rw [← hitem]
      exact jsStrOrUndefined_ne_empty _
  · intro domains m1 m2 h
    have hmk : ∀ item : RubricItem, mkItemScore m1 item = mkItemScore m2 item := by
      intro item
      rcases h item.id with heq | ⟨e, h1, h2, h3⟩
      · simp [mkItemScore, heq]
      · simp [mkItemScore, h1, h2, h3, jsNumOrUndefined]
    unfold calculateDomainScores domainItemScoresOf
    apply List.map_congr_left
    intro d _
    have hmap : d.items.map (mkItemScore m1) = d.items.map (mkItemScore m2) :=
      List.map_congr_left (fun it _ => hmk it)
    rw [hmap]

/-- C10 witness: the single-item rubric scored 0-with-comment versus
unrated-with-comment yields identical domain scores. -/
theorem calculateDomainScores_zero_is_unrated_witness :
    calculateDomainScores [singleItemDomain] zeroRatedMap =
      calculateDomainScores [singleItemDomain] unratedMap :=
  calculateDomainScores_zero_is_unrated.2 [singleItemDomain] zeroRatedMap unratedMap
    (by
      intro id
      by_cases hid : id = "a"
      · subst hid
        right
        exact ⟨{ rating := some 0, comment := some "c" }, rfl, rfl, rfl⟩
      · left
        have hne : ¬ ("a" = id) := fun hcontra => hid (Eq.symm hcontra)
        simp [lookupScore, zeroRatedMap, unratedMap, List.find?, hne])


end TES
